import Mathlib

/-!
Verification development for the AIDEV-Hub session lifecycle and
crash-recovery core (`Core/SessionManager.py`, `Core/ActionTracker.py`,
and the subset of `Core/DatabaseManager.py` they use).

Modelling conventions:
* Wall-clock readings (`datetime.now()`) are passed to each operation as an
  explicit `Nat` parameter `t`, measured in seconds; ISO timestamp strings
  are order-isomorphic to these readings, so SQL `ORDER BY StartTime ASC`
  on the TEXT column is modelled as sorting by the `Nat` reading.
* `Params`/`Result` columns hold `json.dumps` of an opaque structured
  payload, read back with `json.loads`; since that round-trips, the model
  stores the structured value (`Payload`) directly.
* `uuid.uuid4()` for snapshot ids is modelled by a counter in the manager
  state (`uuidCtr`); the fresh `uuid.uuid4()` for an action id is passed
  as an explicit `fresh` argument, with freshness a hypothesis where needed.
* sqlite tables are lists of rows in insertion order; `UPDATE ... WHERE`
  maps over the rows; an `INSERT` that violates the `Sessions.SessionId`
  primary key raises `IntegrityError`, modelled as `Except.error` where the
  caller does not catch it (`StartSession`, `ResumeSession`) and as a
  caught failure where it does (`RecordAction`).
* Writes to the `SystemLogs` table (`LogToDatabase`) and logger calls are
  omitted: no claim observes them.
* The three session directory partitions and the lock file are a record of
  association lists keyed by session id; a key maps to the optional content
  of that session directory's `state.json`.
-/

/-- Opaque structured payload carried in `Params`/`Result` columns: either a
caller-supplied value (`raw`), the `{"Error": ..., "ErrorType": ...}` dict
built by `ExecuteAction` on an exception (`errObj`), or a single-key string
dict such as `{"Reason": "Canceled by user"}` (`msgObj`). -/
inductive Payload where
  | raw (s : String)
  | errObj (error : String) (errorType : String)
  | msgObj (key : String) (val : String)
  deriving Repr, DecidableEq

/-- A Python exception: its type name (`type(e).__name__`) and message
(`str(e)`). -/
structure Exc where
  ty : String
  msg : String

/-- One entry of the `Messages` list inside the session state JSON. -/
structure Message where
  MessageId : String
  Timestamp : Nat
  Source : String
  Content : String
  deriving Repr, DecidableEq

/-- One entry of the `Actions` mirror list inside the session state JSON. -/
structure MirrorAction where
  ActionId : String
  ActionType : String
  StartTime : Nat
  EndTime : Option Nat := none
  Status : String
  Params : Option Payload := none
  Result : Option Payload := none
  deriving Repr, DecidableEq

/-- The session state JSON document (`state.json`). Keys a given document
may lack are `Option` fields defaulting to `none`. -/
structure SessionState where
  SessionId : String
  StartTime : Nat
  Messages : List Message
  Context : List (String × String)
  LastModified : Nat
  EndTime : Option Nat := none
  Status : Option String := none
  Summary : Option String := none
  Actions : Option (List MirrorAction) := none
  ResumedFrom : Option String := none
  OriginalSessionId : Option String := none
  deriving Repr, DecidableEq

/-- Contents of a `state.json` file on disk: either bytes `json.load`
rejects (also covering documents on which the resume-time cloning raises,
e.g. a non-dict or a dict without `"SessionId"`), or a parsed document. -/
inductive FileContent where
  | malformed (raw : String)
  | valid (st : SessionState)
  deriving Repr, DecidableEq

/-- One directory partition (active / crashed / completed): session id to
the optional content of that session directory's `state.json` file.
A filesystem directory has unique names, so lookups take the first match
and erasure removes every match. -/
abbrev Dir := List (String × Option FileContent)

/-- `os.path.exists` plus directory content: `some c` when the session
subdirectory exists (with `state.json` content `c`), `none` otherwise. -/
def dirLookup (d : Dir) (k : String) : Option (Option FileContent) :=
  (d.find? (fun kv => kv.1 == k)).map (fun kv => kv.2)

/-- Remove a session subdirectory (source side of `shutil.move`). -/
def dirErase (d : Dir) (k : String) : Dir :=
  d.filter (fun kv => !(kv.1 == k))

/-- Create or overwrite a session subdirectory with given content
(destination side of `shutil.move`, or a `state.json` write). -/
def dirSet (d : Dir) (k : String) (v : Option FileContent) : Dir :=
  (k, v) :: dirErase d k

/-- `os.makedirs(..., exist_ok=True)`: create the subdirectory if absent,
keep it (and its contents) if present. -/
def dirEnsure (d : Dir) (k : String) : Dir :=
  if (dirLookup d k).isSome then d else (k, none) :: d

/-- Row of the `Sessions` table. -/
structure SessionRow where
  SessionId : String
  StartTime : Nat
  EndTime : Option Nat := none
  Status : String
  Summary : Option String := none
  deriving Repr, DecidableEq

/-- Row of the `Actions` table. -/
structure ActionRow where
  ActionId : String
  SessionId : String
  ActionType : String
  StartTime : Nat
  EndTime : Option Nat := none
  Status : String
  Params : Option Payload := none
  Result : Option Payload := none
  deriving Repr, DecidableEq

/-- Row of the `StateSnapshots` table (`StateData` holds the serialized
state document). -/
structure SnapshotRow where
  SnapshotId : String
  SessionId : String
  Timestamp : Nat
  StateData : SessionState
  deriving Repr, DecidableEq

/-- Row of the `SessionRelationships` table. -/
structure RelRow where
  ParentSessionId : String
  ChildSessionId : String
  RelationType : String
  deriving Repr, DecidableEq

/-- The relational store: the four tables the lifecycle manager and action
log read and write. -/
structure DB where
  sessions : List SessionRow
  actions : List ActionRow
  snapshots : List SnapshotRow
  relationships : List RelRow
  deriving Repr, DecidableEq

/-- The filesystem owned by the lifecycle manager: the three partitions and
the lock file (`some id` when `State/session.lock` exists with that id as
its stripped contents). -/
structure FS where
  active : Dir
  crashed : Dir
  completed : Dir
  lock : Option String
  deriving Repr, DecidableEq

/-- Combined state of `SessionManager` (and the `ActionTracker` sharing it):
filesystem, store, the mutable `self.SessionId`, and the uuid counter. -/
structure Mgr where
  fs : FS
  db : DB
  sessionId : Option String
  uuidCtr : Nat
  deriving Repr, DecidableEq

/-- `datetime.now().strftime("%Y%m%d%H%M%S")`: the second-resolution
rendering of a clock reading. Modelled as the decimal rendering of the
second count; like `strftime`, it produces equal strings exactly for equal
second-resolution readings. -/
def fmtTime (t : Nat) : String := toString t

/-- `uuid.uuid4()` as consumed for snapshot ids. -/
def freshUuid (m : Mgr) : String × Mgr :=
  ("uuid-" ++ toString m.uuidCtr, { m with uuidCtr := m.uuidCtr + 1 })

/-- `SessionManager.UpdateSessionStatus`: an unconditional
`UPDATE Sessions SET Status = ? WHERE SessionId = ?`; returns whether any
row was affected. -/
def UpdateSessionStatus (m : Mgr) (sid status : String) : Mgr × Bool :=
  ({ m with db := { m.db with sessions := m.db.sessions.map (fun r =>
      if r.SessionId == sid then { r with Status := status } else r) } },
   m.db.sessions.any (fun r => r.SessionId == sid))

/-- `SessionManager.CheckForCrashedSessions`, run once at construction:
if the lock file exists, and the session it names has a directory under
the active partition, move that directory to the crashed partition and
update the store row to CRASHED; in all cases delete the lock file. -/
def CheckForCrashedSessions (m : Mgr) : Mgr :=
  match m.fs.lock with
  | none => m
  | some crashedId =>
    let m1 :=
      match dirLookup m.fs.active crashedId with
      | some content =>
        (UpdateSessionStatus
          { m with fs := { m.fs with
              active := dirErase m.fs.active crashedId,
              crashed := dirSet m.fs.crashed crashedId content } }
          crashedId "CRASHED").1
      | none => m
    { m1 with fs := { m1.fs with lock := none } }

/-- `SessionManager.SaveSessionState`: stamp `LastModified`, rewrite
`state.json` under the active partition (the `open(..., "w")` raises when
the session directory is absent, caught and reported as `false`), and
append a `StateSnapshots` row. -/
def SaveSessionState (m : Mgr) (st : SessionState) (t : Nat) : Mgr × Bool :=
  match m.sessionId with
  | none => (m, false)
  | some sid =>
    match dirLookup m.fs.active sid with
    | none => (m, false)
    | some _ =>
      let st1 := { st with LastModified := t }
      let m1 := { m with fs := { m.fs with
          active := dirSet m.fs.active sid (some (.valid st1)) } }
      let u := freshUuid m1
      ({ u.2 with db := { u.2.db with snapshots := u.2.db.snapshots ++
          [(⟨u.1, sid, t, st1⟩ : SnapshotRow)] } }, true)

/-- `SessionManager.LoadSessionState`: pure read of the current session's
`state.json`; absence, a malformed file, or no current session yield
`none`. -/
def LoadSessionState (m : Mgr) : Option SessionState :=
  match m.sessionId with
  | none => none
  | some sid =>
    match dirLookup m.fs.active sid with
    | some (some (.valid st)) => some st
    | _ => none

/-- The `UPDATE Sessions` row transformation of `EndSession`: set
`EndTime` and `Status`, and `Summary` only when one was supplied (the
`if Summary:` guard). -/
def endRowUpd (sid : String) (summary : Option String) (t : Nat)
    (r : SessionRow) : SessionRow :=
  if r.SessionId == sid then
    { r with
        EndTime := some t
        Status := "COMPLETED"
        Summary := (match summary with | some s => some s | none => r.Summary) }
  else r

/-- The `state.json` patch of `EndSession`: when the file exists and
parses, rewrite it with `EndTime`/`Status`/`LastModified` (and `Summary`
when supplied); a missing or malformed file is left alone (the exception
is caught). -/
def endPatchFile (m : Mgr) (sid : String) (summary : Option String)
    (t : Nat) : Mgr :=
  match dirLookup m.fs.active sid with
  | some (some (.valid st)) =>
    let st1 := { st with
        EndTime := some t
        Status := some "COMPLETED"
        LastModified := t
        Summary := (match summary with | some s => some s | none => st.Summary) }
    { m with fs := { m.fs with
        active := dirSet m.fs.active sid (some (.valid st1)) } }
  | _ => m

/-- The directory move of `EndSession`: `shutil.move` the session's active
directory to the completed partition when it exists. -/
def endMoveDir (m : Mgr) (sid : String) : Mgr :=
  match dirLookup m.fs.active sid with
  | some content =>
    { m with fs := { m.fs with
        active := dirErase m.fs.active sid,
        completed := dirSet m.fs.completed sid content } }
  | none => m

/-- `SessionManager.EndSession`: no current session is a no-op failure;
otherwise update the session row, patch the state file, move the active
directory to completed, remove the lock file, clear the current session
id, and report success. -/
def EndSession (m : Mgr) (summary : Option String) (t : Nat) : Mgr × Bool :=
  match m.sessionId with
  | none => (m, false)
  | some sid =>
    let m1 := { m with db := { m.db with
        sessions := m.db.sessions.map (endRowUpd sid summary t) } }
    let m2 := endPatchFile m1 sid summary t
    let m3 := endMoveDir m2 sid
    let m4 := { m3 with fs := { m3.fs with lock := none } }
    ({ m4 with sessionId := none }, true)

/-- `DatabaseManager.InsertWithId` on the `Sessions` table: sqlite raises
`IntegrityError` on a duplicate primary key, which `InsertWithId` re-raises
after rollback; otherwise the row is appended. -/
def insertSessionRow (m : Mgr) (row : SessionRow) : Except String Mgr :=
  if m.db.sessions.any (fun r => r.SessionId == row.SessionId) then
    .error "IntegrityError: UNIQUE constraint failed: Sessions.SessionId"
  else
    .ok { m with db := { m.db with sessions := m.db.sessions ++ [row] } }

/-- The `if self.SessionId: self.EndSession(...)` prologue of
`StartSession` and `ResumeSession`. -/
def endCurrentIfAny (m : Mgr) (summary : String) (t : Nat) : Mgr :=
  if m.sessionId.isSome then (EndSession m (some summary) t).1 else m

/-- The initial state document written by `StartSession`: empty messages
and context. -/
def initialState (sid : String) (t : Nat) : SessionState :=
  ⟨sid, t, [], [], t, none, none, none, none, none, none⟩

/-- The tail of `StartSession` after the successful row insert: create the
active directory, write the lock file, write the initial state, return the
id. -/
def startFinish (m2 : Mgr) (sid : String) (t : Nat) : Mgr × String :=
  let m3 := { m2 with fs := { m2.fs with
      active := dirEnsure m2.fs.active sid } }
  let m4 := { m3 with fs := { m3.fs with lock := some sid } }
  ((SaveSessionState m4 (initialState sid t) t).1, sid)

/-- `SessionManager.StartSession`: end any current session first, derive
the new id from the current second-resolution timestamp, insert the
session row ACTIVE (the uncaught `IntegrityError` propagates to the
caller, whose state is then not observed by any claim), then run
`startFinish`. -/
def StartSession (m : Mgr) (t : Nat) : Except String (Mgr × String) :=
  let m0 := endCurrentIfAny m "Ended to start new session" t
  (insertSessionRow { m0 with sessionId := some (fmtTime t) }
      ⟨fmtTime t, t, none, "ACTIVE", none⟩).map
    (fun m2 => startFinish m2 (fmtTime t) t)

/-- The minimal fallback state written by `ResumeSession` when the crashed
session's `state.json` is absent or cannot be used: empty messages and
context, carrying only `ResumedFrom`. -/
def minimalState (newId : String) (t : Nat) (cid : String) : SessionState :=
  ⟨newId, t, [], [], t, none, none, none, none, some cid, none⟩

/-- The resume-time state document: clone the crashed state when it parses
(keeping all its fields, stamping `OriginalSessionId` from its old
`"SessionId"` key and overwriting id, start time, `ResumedFrom` and
`LastModified`); otherwise the minimal fallback state. -/
def resumeState (content : Option FileContent) (newId : String) (t : Nat)
    (cid : String) : SessionState :=
  match content with
  | some (.valid st) =>
    { st with
        OriginalSessionId := some st.SessionId
        SessionId := newId
        StartTime := t
        ResumedFrom := some cid
        LastModified := t }
  | some (.malformed _) => minimalState newId t cid
  | none => minimalState newId t cid

/-- The tail of `ResumeSession` after the successful row insert: insert
the RESUME relationship, create the active directory, write the lock
file, and save the cloned-or-minimal state. -/
def resumeFinish (m2 : Mgr) (cid newId : String)
    (content : Option FileContent) (t : Nat) : Mgr :=
  let m3 := { m2 with db := { m2.db with
      relationships := m2.db.relationships ++
        [(⟨cid, newId, "RESUME"⟩ : RelRow)] } }
  let m4 := { m3 with fs := { m3.fs with
      active := dirEnsure m3.fs.active newId } }
  let m5 := { m4 with fs := { m4.fs with lock := some newId } }
  (SaveSessionState m5 (resumeState content newId t cid) t).1

/-- `SessionManager.ResumeSession`: fail (returning no new session and
changing nothing) when the crashed partition has no directory for the id;
otherwise end any current session, allocate the suffixed new id, insert
the session row ACTIVE (the uncaught `IntegrityError` propagates), then
run `resumeFinish`. -/
def ResumeSession (m : Mgr) (cid : String) (t : Nat) :
    Except String (Mgr × Option String) :=
  match dirLookup m.fs.crashed cid with
  | none => .ok (m, none)
  | some content =>
    let m0 := endCurrentIfAny m "Ended to resume crashed session" t
    let newId := cid ++ "_resumed_" ++ fmtTime t
    (insertSessionRow { m0 with sessionId := some newId }
        ⟨newId, t, none, "ACTIVE", none⟩).map
      (fun m2 => (resumeFinish m2 cid newId content t, some newId))

/-- `SELECT ... FROM Actions WHERE ActionId = ?` followed by `Actions[0]`:
the first row with the given id, if any. -/
def findRow (acts : List ActionRow) (id : String) : Option ActionRow :=
  acts.find? (fun a => a.ActionId == id)

/-- The `UPDATE Actions SET EndTime, Status, Result WHERE ActionId = ?` row
transformation shared by `CompleteAction` and `CancelAction`. -/
def termUpd (id : String) (t : Nat) (status : String)
    (result : Option Payload) (a : ActionRow) : ActionRow :=
  if a.ActionId == id then
    { a with EndTime := some t, Status := status, Result := result }
  else a

/-- The state-mirror patch of `CompleteAction`/`CancelAction`: linear scan,
patching only the first entry with the given id (the loop breaks). -/
def patchFirst (acts : List MirrorAction) (id : String) (t : Nat)
    (status : String) (result : Option Payload) : List MirrorAction :=
  match acts with
  | [] => []
  | a :: rest =>
    if a.ActionId == id then
      { a with EndTime := some t, Status := status, Result := result } :: rest
    else a :: patchFirst rest id t status result

/-- The shared body of `CompleteAction` and `CancelAction` after their
guards: update the `Actions` row, then (when the state mirror loads and
has an `Actions` list) patch the mirror and save it. The store update
applies whether or not a mirror entry exists. -/
def applyTerminal (m : Mgr) (id : String) (status : String)
    (result : Option Payload) (t : Nat) : Mgr :=
  let m1 := { m with db := { m.db with
      actions := m.db.actions.map (termUpd id t status result) } }
  match LoadSessionState m1 with
  | some st =>
    match st.Actions with
    | some acts =>
      (SaveSessionState m1
        { st with Actions := some (patchFirst acts id t status result) } t).1
    | none => m1
  | none => m1

/-- The state-mirror step of `RecordAction`: when the state loads, append
the new action entry to its `Actions` list and save. -/
def recordMirror (m : Mgr) (fresh ty : String) (params : Option Payload)
    (t : Nat) : Mgr :=
  match LoadSessionState m with
  | some st =>
    let entry : MirrorAction := ⟨fresh, ty, t, none, "STARTED", params, none⟩
    (SaveSessionState m
      { st with Actions := some (st.Actions.getD [] ++ [entry]) } t).1
  | none => m

/-- `ActionTracker.RecordAction`: no active session fails with no id;
otherwise insert a STARTED row (an `IntegrityError` on a duplicate action
id is caught by the method's `except`, yielding `None` with the store
unchanged), append the action to the state mirror when the state loads,
and return the new id. The fresh `uuid.uuid4()` is the `fresh` argument. -/
def RecordAction (m : Mgr) (ty : String) (params : Option Payload)
    (fresh : String) (t : Nat) : Mgr × Option String :=
  match m.sessionId with
  | none => (m, none)
  | some sid =>
    if (findRow m.db.actions fresh).isSome then (m, none)
    else
      let row : ActionRow := ⟨fresh, sid, ty, t, none, "STARTED", params, none⟩
      (recordMirror
        { m with db := { m.db with actions := m.db.actions ++ [row] } }
        fresh ty params t, some fresh)

/-- `ActionTracker.CompleteAction`: requires an active session; performs no
check of the action's current status — the row update applies
unconditionally and the call reports success. -/
def CompleteAction (m : Mgr) (id : String) (result : Option Payload)
    (status : String) (t : Nat) : Mgr × Bool :=
  match m.sessionId with
  | none => (m, false)
  | some _ => (applyTerminal m id status result t, true)

/-- `ActionTracker.CancelAction`: requires an active session; reads the
action's current status first and fails with no side effects unless it is
STARTED; otherwise terminalizes to CANCELED with the fixed reason. -/
def CancelAction (m : Mgr) (id : String) (t : Nat) : Mgr × Bool :=
  match m.sessionId with
  | none => (m, false)
  | some _ =>
    match findRow m.db.actions id with
    | none => (m, false)
    | some r =>
      if r.Status == "STARTED" then
        (applyTerminal m id "CANCELED"
          (some (.msgObj "Reason" "Canceled by user")) t, true)
      else (m, false)

/-- `ActionTracker.ExecuteAction`: record the action; if recording fails
the wrapped function is never invoked and a failure tuple with no id is
returned; otherwise invoke the function, terminalize COMPLETED with its
return value on normal return, or FAILED with the exception's message and
type name on a raise. Returns the Python `(success, result, action_id)`
tuple alongside the state. -/
def ExecuteAction (m : Mgr) (ty : String)
    (fn : Option Payload → Except Exc (Option Payload))
    (params : Option Payload) (fresh : String) (t : Nat) :
    Mgr × (Bool × Option Payload × Option String) :=
  let r := RecordAction m ty params fresh t
  match r.2 with
  | none => (r.1, (false, some (.msgObj "Error" "Failed to record action"), none))
  | some actionId =>
    match fn params with
    | .ok result =>
      ((CompleteAction r.1 actionId result "COMPLETED" t).1,
       (true, result, some actionId))
    | .error e =>
      ((CompleteAction r.1 actionId (some (.errObj e.msg e.ty)) "FAILED" t).1,
       (false, some (.errObj e.msg e.ty), some actionId))

/-- The comparison behind `ORDER BY StartTime ASC`. -/
def startLE (a b : ActionRow) : Prop := a.StartTime ≤ b.StartTime

instance : DecidableRel startLE :=
  fun a b => inferInstanceAs (Decidable (a.StartTime ≤ b.StartTime))

instance : IsTotal ActionRow startLE :=
  ⟨fun a b => Nat.le_total a.StartTime b.StartTime⟩

instance : IsTrans ActionRow startLE :=
  ⟨fun _ _ _ h1 h2 => Nat.le_trans h1 h2⟩

/-- `ActionTracker.GetPendingActions`: empty when neither an argument nor
a current session names a target; otherwise
`SELECT ... WHERE SessionId = ? AND Status = 'STARTED' ORDER BY StartTime ASC`,
modelled as filter-then-sort. -/
def GetPendingActions (m : Mgr) (sid : Option String) : List ActionRow :=
  match sid, m.sessionId with
  | none, none => []
  | s, cur =>
    let target := match s with | some x => x | none => cur.getD ""
    List.insertionSort startLE
      (m.db.actions.filter (fun a => a.SessionId == target && a.Status == "STARTED"))

/-! Basic lemmas about the directory-partition operations. -/

theorem dirLookup_cons_self (k : String) (v : Option FileContent) (d : Dir) :
    dirLookup ((k, v) :: d) k = some v := by
  simp [dirLookup, List.find?_cons_of_pos]

theorem dirLookup_set_self (d : Dir) (k : String) (v : Option FileContent) :
    dirLookup (dirSet d k v) k = some v :=
  dirLookup_cons_self k v (dirErase d k)

theorem dirLookup_erase_self (d : Dir) (k : String) :
    dirLookup (dirErase d k) k = none := by
  induction d with
  | nil => rfl
  | cons kv rest ih =>
    by_cases h : kv.1 = k
    · simpa [dirErase, h] using ih
    · simp only [dirErase, dirLookup] at ih ⊢
      simp [List.find?_cons_of_neg, h, ih]

theorem dirLookup_ensure_isSome (d : Dir) (k : String) :
    (dirLookup (dirEnsure d k) k).isSome := by
  unfold dirEnsure
  by_cases h : (dirLookup d k).isSome
  · rw [if_pos h]; exact h
  · rw [if_neg h, dirLookup_cons_self]; rfl

/-! Field-preservation lemmas for the state-save path, used to push facts
through the mirror bookkeeping each operation performs. -/

theorem save_db_actions (m : Mgr) (st : SessionState) (t : Nat) :
    (SaveSessionState m st t).1.db.actions = m.db.actions := by
  unfold SaveSessionState freshUuid
  cases h : m.sessionId with
  | none => rfl
  | some sid =>
    dsimp only
    cases h2 : dirLookup m.fs.active sid <;> rfl

theorem save_db_sessions (m : Mgr) (st : SessionState) (t : Nat) :
    (SaveSessionState m st t).1.db.sessions = m.db.sessions := by
  unfold SaveSessionState freshUuid
  cases h : m.sessionId with
  | none => rfl
  | some sid =>
    dsimp only
    cases h2 : dirLookup m.fs.active sid <;> rfl

theorem save_sessionId (m : Mgr) (st : SessionState) (t : Nat) :
    (SaveSessionState m st t).1.sessionId = m.sessionId := by
  unfold SaveSessionState freshUuid
  cases h : m.sessionId with
  | none => exact h
  | some sid =>
    dsimp only
    cases h2 : dirLookup m.fs.active sid with
    | none => exact h
    | some c => rfl

theorem save_ok (m : Mgr) (st : SessionState) (t : Nat) (sid : String)
    (hs : m.sessionId = some sid) (hd : (dirLookup m.fs.active sid).isSome) :
    dirLookup (SaveSessionState m st t).1.fs.active sid
      = some (some (.valid { st with LastModified := t })) := by
  unfold SaveSessionState freshUuid
  rw [hs]
  dsimp only
  cases h2 : dirLookup m.fs.active sid with
  | none => rw [h2] at hd; exact absurd hd (by simp)
  | some c => exact dirLookup_set_self m.fs.active sid _

/-! Lemmas about `EndSession` and its pieces. -/

theorem endRowUpd_SessionId (sid : String) (summary : Option String) (t : Nat)
    (r : SessionRow) : (endRowUpd sid summary t r).SessionId = r.SessionId := by
  unfold endRowUpd; split <;> rfl

theorem endPatchFile_db (m : Mgr) (sid : String) (summary : Option String)
    (t : Nat) : (endPatchFile m sid summary t).db = m.db := by
  unfold endPatchFile
  cases h : dirLookup m.fs.active sid with
  | none => rfl
  | some c => cases c with
    | none => rfl
    | some fc => cases fc <;> rfl

theorem endPatchFile_sessionId (m : Mgr) (sid : String)
    (summary : Option String) (t : Nat) :
    (endPatchFile m sid summary t).sessionId = m.sessionId := by
  unfold endPatchFile
  cases h : dirLookup m.fs.active sid with
  | none => rfl
  | some c => cases c with
    | none => rfl
    | some fc => cases fc <;> rfl

theorem endMoveDir_db (m : Mgr) (sid : String) :
    (endMoveDir m sid).db = m.db := by
  unfold endMoveDir
  cases h : dirLookup m.fs.active sid <;> rfl

theorem endMoveDir_sessionId (m : Mgr) (sid : String) :
    (endMoveDir m sid).sessionId = m.sessionId := by
  unfold endMoveDir
  cases h : dirLookup m.fs.active sid <;> rfl

theorem endSession_none (m : Mgr) (summary : Option String) (t : Nat)
    (h : m.sessionId = none) : EndSession m summary t = (m, false) := by
  unfold EndSession
  rw [h]

theorem endSession_some (m : Mgr) (summary : Option String) (t : Nat)
    (sid : String) (h : m.sessionId = some sid) :
    (EndSession m summary t).1.sessionId = none ∧
      (EndSession m summary t).2 = true := by
  unfold EndSession
  rw [h]
  exact ⟨rfl, rfl⟩

theorem endSession_sessions (m : Mgr) (summary : Option String) (t : Nat)
    (sid : String) (h : m.sessionId = some sid) :
    (EndSession m summary t).1.db.sessions
      = m.db.sessions.map (endRowUpd sid summary t) := by
  unfold EndSession
  rw [h]
  dsimp only
  rw [endMoveDir_db, endPatchFile_db]

theorem endSession_sessionIds (m : Mgr) (summary : Option String) (t : Nat) :
    (EndSession m summary t).1.db.sessions.map (fun r => r.SessionId)
      = m.db.sessions.map (fun r => r.SessionId) := by
  cases h : m.sessionId with
  | none => rw [endSession_none m summary t h]
  | some sid =>
    rw [endSession_sessions m summary t sid h, List.map_map]
    exact List.map_congr_left (fun r _ => endRowUpd_SessionId sid summary t r)

/-! Lemmas about `Actions`-table lookups after inserts and updates. -/

theorem findRow_eq_none (acts : List ActionRow) (id : String)
    (hf : ∀ a ∈ acts, a.ActionId ≠ id) : findRow acts id = none := by
  unfold findRow
  rw [List.find?_eq_none]
  intro a ha
  simpa using hf a ha

theorem termUpd_ActionId (id : String) (t : Nat) (status : String)
    (result : Option Payload) (a : ActionRow) :
    (termUpd id t status result a).ActionId = a.ActionId := by
  unfold termUpd; split <;> rfl

theorem findRow_termUpd_append (acts : List ActionRow) (id : String)
    (t : Nat) (status : String) (result : Option Payload) (row : ActionRow)
    (hf : ∀ a ∈ acts, a.ActionId ≠ id) (hrow : row.ActionId = id) :
    findRow ((acts ++ [row]).map (termUpd id t status result)) id
      = some { row with EndTime := some t, Status := status, Result := result } := by
  induction acts with
  | nil =>
    simp [findRow, termUpd, hrow, List.find?_cons_of_pos]
  | cons a rest ih =>
    have ha : a.ActionId ≠ id := hf a (List.mem_cons_self a rest)
    have hrest : ∀ b ∈ rest, b.ActionId ≠ id :=
      fun b hb => hf b (List.mem_cons_of_mem a hb)
    have h1 : (termUpd id t status result a).ActionId ≠ id := by
      rw [termUpd_ActionId]; exact ha
    simp only [List.cons_append, List.map_cons, findRow] at ih ⊢
    rw [List.find?_cons_of_neg _ (by simpa using h1)]
    exact ih hrest

/-! Lemmas about `applyTerminal` (shared body of `CompleteAction` and
`CancelAction`). -/

theorem applyTerminal_actions (m : Mgr) (id : String) (status : String)
    (result : Option Payload) (t : Nat) :
    (applyTerminal m id status result t).db.actions
      = m.db.actions.map (termUpd id t status result) := by
  unfold applyTerminal
  dsimp only
  set m1 : Mgr := { m with db := { m.db with
      actions := m.db.actions.map (termUpd id t status result) } } with hm1
  cases h : LoadSessionState m1 with
  | none => rfl
  | some st =>
    dsimp only
    cases h2 : st.Actions with
    | none => rfl
    | some acts =>
      dsimp only
      rw [save_db_actions]

theorem applyTerminal_sessionId (m : Mgr) (id : String) (status : String)
    (result : Option Payload) (t : Nat) :
    (applyTerminal m id status result t).sessionId = m.sessionId := by
  unfold applyTerminal
  dsimp only
  set m1 : Mgr := { m with db := { m.db with
      actions := m.db.actions.map (termUpd id t status result) } } with hm1
  cases h : LoadSessionState m1 with
  | none => rfl
  | some st =>
    dsimp only
    cases h2 : st.Actions with
    | none => rfl
    | some acts =>
      dsimp only
      rw [save_sessionId]

theorem recordMirror_actions (m : Mgr) (fresh ty : String)
    (params : Option Payload) (t : Nat) :
    (recordMirror m fresh ty params t).db.actions = m.db.actions := by
  unfold recordMirror
  cases h : LoadSessionState m with
  | none => rfl
  | some st =>
    dsimp only
    rw [save_db_actions]

theorem recordMirror_sessionId (m : Mgr) (fresh ty : String)
    (params : Option Payload) (t : Nat) :
    (recordMirror m fresh ty params t).sessionId = m.sessionId := by
  unfold recordMirror
  cases h : LoadSessionState m with
  | none => rfl
  | some st =>
    dsimp only
    rw [save_sessionId]

theorem recordAction_spec (m : Mgr) (ty : String) (params : Option Payload)
    (fresh : String) (t : Nat) (sid : String)
    (hs : m.sessionId = some sid)
    (hf : ∀ a ∈ m.db.actions, a.ActionId ≠ fresh) :
    (RecordAction m ty params fresh t).2 = some fresh ∧
    (RecordAction m ty params fresh t).1.db.actions
      = m.db.actions ++ [⟨fresh, sid, ty, t, none, "STARTED", params, none⟩] ∧
    (RecordAction m ty params fresh t).1.sessionId = some sid := by
  unfold RecordAction
  rw [hs]
  dsimp only
  rw [findRow_eq_none m.db.actions fresh hf]
  simp only [Option.isSome_none, Bool.false_eq_true, if_false]
  refine ⟨trivial, ?_, ?_⟩
  · rw [recordMirror_actions]
  · rw [recordMirror_sessionId]

/-! Claim C1: startup crash detection. -/

/-- C1: for every session S, if at manager construction the lock file
exists containing S's id and S's subdirectory exists under the active
partition, then after the construction-time scan S's store row status is
CRASHED, S's directory is found under the crashed partition and not under
active, and the lock file has been deleted. -/
theorem c1_crash_detection (m : Mgr) (s : String) (c : Option FileContent)
    (hlock : m.fs.lock = some s)
    (hdir : dirLookup m.fs.active s = some c)
    (hrow : ∃ r ∈ m.db.sessions, r.SessionId = s) :
    (∃ r ∈ (CheckForCrashedSessions m).db.sessions,
        r.SessionId = s ∧ r.Status = "CRASHED") ∧
    (∀ r ∈ (CheckForCrashedSessions m).db.sessions,
        r.SessionId = s → r.Status = "CRASHED") ∧
    (dirLookup (CheckForCrashedSessions m).fs.crashed s).isSome ∧
    dirLookup (CheckForCrashedSessions m).fs.active s = none ∧
    (CheckForCrashedSessions m).fs.lock = none := by
  unfold CheckForCrashedSessions UpdateSessionStatus
  rw [hlock]
  dsimp only
  rw [hdir]
  dsimp only
  refine ⟨?_, ?_, ?_, ?_, rfl⟩
  · obtain ⟨r, hr, hrs⟩ := hrow
    refine ⟨{ r with Status := "CRASHED" }, ?_, hrs, rfl⟩
    rw [List.mem_map]
    exact ⟨r, hr, by simp [hrs]⟩
  · intro r hmem hid
    rw [List.mem_map] at hmem
    obtain ⟨a, _, rfl⟩ := hmem
    by_cases h : a.SessionId = s
    · simp [h]
    · simp only [show (a.SessionId == s) = false from beq_eq_false_iff_ne.mpr h,
        Bool.false_eq_true, if_false] at hid ⊢
      exact absurd hid h
  · rw [dirLookup_set_self]; rfl
  · exact dirLookup_erase_self m.fs.active s

/-- Concrete manager for the C1 witness: lock file naming session S1,
whose directory sits under the active partition, with an ACTIVE store
row. -/
def mgrC1 : Mgr :=
  { fs := { active := [("S1", some (.valid (initialState "S1" 1)))],
            crashed := [], completed := [], lock := some "S1" },
    db := { sessions := [⟨"S1", 1, none, "ACTIVE", none⟩],
            actions := [], snapshots := [], relationships := [] },
    sessionId := none, uuidCtr := 0 }

/-- C1 witness: the hypotheses of `c1_crash_detection` hold at `mgrC1`. -/
theorem c1_witness :
    (∃ r ∈ (CheckForCrashedSessions mgrC1).db.sessions,
        r.SessionId = "S1" ∧ r.Status = "CRASHED") ∧
    (∀ r ∈ (CheckForCrashedSessions mgrC1).db.sessions,
        r.SessionId = "S1" → r.Status = "CRASHED") ∧
    (dirLookup (CheckForCrashedSessions mgrC1).fs.crashed "S1").isSome ∧
    dirLookup (CheckForCrashedSessions mgrC1).fs.active "S1" = none ∧
    (CheckForCrashedSessions mgrC1).fs.lock = none :=
  c1_crash_detection mgrC1 "S1" (some (.valid (initialState "S1" 1)))
    rfl (by decide)
    ⟨⟨"S1", 1, none, "ACTIVE", none⟩, by decide, rfl⟩

/-! Claim C6: startup-scan guards. -/

/-- C6 (amended): before reclassifying the session named in a leftover
lock file, the startup scan checks that the session's directory exists
under the active partition, and skips both the move and the row update
when it does not — so re-running the scan after the directory has already
been moved changes nothing besides deleting the lock file. The scan does
not check the row's current status: whenever the directory is present
under active, the row's status is overwritten with CRASHED regardless of
its prior value. -/
theorem c6_scan_guards (m : Mgr) (s : String) (hlock : m.fs.lock = some s) :
    (dirLookup m.fs.active s = none →
      CheckForCrashedSessions m = { m with fs := { m.fs with lock := none } }) ∧
    (∀ c, dirLookup m.fs.active s = some c →
      ∀ r ∈ (CheckForCrashedSessions m).db.sessions,
        r.SessionId = s → r.Status = "CRASHED") := by
  constructor
  · intro hnone
    unfold CheckForCrashedSessions
    rw [hlock]
    dsimp only
    rw [hnone]
  · intro c hdir r hmem hid
    unfold CheckForCrashedSessions UpdateSessionStatus at hmem
    rw [hlock] at hmem
    dsimp only at hmem
    rw [hdir] at hmem
    dsimp only at hmem
    rw [List.mem_map] at hmem
    obtain ⟨a, _, rfl⟩ := hmem
    by_cases h : a.SessionId = s
    · simp [h]
    · simp only [show (a.SessionId == s) = false from beq_eq_false_iff_ne.mpr h,
        Bool.false_eq_true, if_false] at hid ⊢
      exact absurd hid h

/-- Concrete manager for the C6 counterexample and witness: lock file
naming S1, S1's directory under active, and an S1 row whose status is the
terminal COMPLETED. -/
def mgrC6 : Mgr :=
  { fs := { active := [("S1", none)], crashed := [], completed := [],
            lock := some "S1" },
    db := { sessions := [⟨"S1", 1, some 2, "COMPLETED", none⟩],
            actions := [], snapshots := [], relationships := [] },
    sessionId := none, uuidCtr := 0 }

/-- C6 counterexample: the scan performs no check of the row's current
status — at `mgrC6` the S1 row is already terminal (COMPLETED), its
directory is still under active, and after the scan the status has been
overwritten with CRASHED. -/
theorem c6_counterexample :
    (mgrC6.db.sessions.find? (fun r => r.SessionId == "S1")).map
        (fun r => r.Status) = some "COMPLETED" ∧
    dirLookup mgrC6.fs.active "S1" = some none ∧
    ((CheckForCrashedSessions mgrC6).db.sessions.find?
        (fun r => r.SessionId == "S1")).map (fun r => r.Status)
      = some "CRASHED" := ⟨rfl, rfl, rfl⟩

/-- C6 witness: the hypothesis of `c6_scan_guards` holds at `mgrC6`. -/
theorem c6_witness :
    (dirLookup mgrC6.fs.active "S1" = none →
      CheckForCrashedSessions mgrC6
        = { mgrC6 with fs := { mgrC6.fs with lock := none } }) ∧
    (∀ c, dirLookup mgrC6.fs.active "S1" = some c →
      ∀ r ∈ (CheckForCrashedSessions mgrC6).db.sessions,
        r.SessionId = "S1" → r.Status = "CRASHED") :=
  c6_scan_guards mgrC6 "S1" rfl

/-! Claim C9: EndSession idempotent-safety. -/

/-- C9: calling `EndSession` when no session is current is a no-op failure
returning false rather than raising (the model of `EndSession` is a total
function, so no exception escapes); and a second invocation immediately
after a successful one returns false and changes nothing. -/
theorem c9_end_session_idempotent (m n : Mgr) (s s2 sn : Option String)
    (t t2 tn : Nat)
    (hnone : n.sessionId = none) (hsucc : (EndSession m s t).2 = true) :
    EndSession n sn tn = (n, false) ∧
    EndSession (EndSession m s t).1 s2 t2 = ((EndSession m s t).1, false) := by
  refine ⟨endSession_none n sn tn hnone, ?_⟩
  cases hs : m.sessionId with
  | none =>
    rw [endSession_none m s t hs] at hsucc
    exact absurd hsucc (by simp)
  | some sid =>
    exact endSession_none _ s2 t2 (endSession_some m s t sid hs).1

/-- Concrete manager for the C9 witness: a current session S with its
active directory and row. -/
def mgrC9 : Mgr :=
  { fs := { active := [("S", some (.valid (initialState "S" 1)))],
            crashed := [], completed := [], lock := some "S" },
    db := { sessions := [⟨"S", 1, none, "ACTIVE", none⟩],
            actions := [], snapshots := [], relationships := [] },
    sessionId := some "S", uuidCtr := 0 }

/-- Concrete manager for the C9 witness: no current session. -/
def mgrC9none : Mgr :=
  { fs := { active := [], crashed := [], completed := [], lock := none },
    db := { sessions := [], actions := [], snapshots := [], relationships := [] },
    sessionId := none, uuidCtr := 0 }

/-- C9 witness: the hypotheses of `c9_end_session_idempotent` hold at
`mgrC9` (a successful end) and `mgrC9none` (no current session). -/
theorem c9_witness :
    EndSession mgrC9none none 4 = (mgrC9none, false) ∧
    EndSession (EndSession mgrC9 (some "done") 3).1 none 4
      = ((EndSession mgrC9 (some "done") 3).1, false) :=
  c9_end_session_idempotent mgrC9 mgrC9none (some "done") none none 3 4 4
    rfl rfl

/-! Claim C10: ResumeSession NotFound atomicity. -/

/-- C10: for every session id with no directory under the crashed
partition, `ResumeSession` returns no new session and leaves the state
unchanged — in particular any current session is not ended, because the
existence check precedes the force-end of the current session. -/
theorem c10_resume_notfound (m : Mgr) (cid : String) (t : Nat)
    (h : dirLookup m.fs.crashed cid = none) :
    ResumeSession m cid t = .ok (m, none) := by
  unfold ResumeSession
  rw [h]

/-- Concrete manager for the C10 witness: a current session S is active
while the crashed partition is empty. -/
def mgrC10 : Mgr :=
  { fs := { active := [("S", some (.valid (initialState "S" 1)))],
            crashed := [], completed := [], lock := some "S" },
    db := { sessions := [⟨"S", 1, none, "ACTIVE", none⟩],
            actions := [], snapshots := [], relationships := [] },
    sessionId := some "S", uuidCtr := 0 }

/-- C10 witness: the hypothesis of `c10_resume_notfound` holds at
`mgrC10`; the returned state is exactly `mgrC10`, current session
included. -/
theorem c10_witness :
    ResumeSession mgrC10 "missing" 7 = .ok (mgrC10, none) :=
  c10_resume_notfound mgrC10 "missing" 7 rfl

/-! Claim C5: session identifier uniqueness. -/

theorem except_map_ok {α β : Type} (e : Except String α) (f : α → β) (b : β)
    (h : e.map f = .ok b) : ∃ a, e = .ok a ∧ f a = b := by
  cases e with
  | error x => exact absurd h (by simp [Except.map])
  | ok a => exact ⟨a, rfl, by simpa [Except.map] using h⟩

theorem insertSessionRow_ok_inv (m : Mgr) (row : SessionRow) (m2 : Mgr)
    (h : insertSessionRow m row = .ok m2) :
    m2 = { m with db := { m.db with sessions := m.db.sessions ++ [row] } } ∧
    ∀ r ∈ m.db.sessions, r.SessionId ≠ row.SessionId := by
  unfold insertSessionRow at h
  split at h
  next hc => exact absurd h (by simp)
  next hc =>
    refine ⟨?_, ?_⟩
    · injection h with h1
      exact h1.symm
    · intro r hr heq
      exact hc (List.any_eq_true.mpr ⟨r, hr, beq_iff_eq.mpr heq⟩)

theorem insertSessionRow_ok (m : Mgr) (row : SessionRow)
    (h : ∀ r ∈ m.db.sessions, r.SessionId ≠ row.SessionId) :
    insertSessionRow m row
      = .ok { m with db := { m.db with sessions := m.db.sessions ++ [row] } } := by
  unfold insertSessionRow
  rw [if_neg]
  intro hc
  obtain ⟨r, hr, hbeq⟩ := List.any_eq_true.mp hc
  exact h r hr (beq_iff_eq.mp hbeq)

theorem endCurrentIfAny_sessionIds (m : Mgr) (s : String) (t : Nat) :
    (endCurrentIfAny m s t).db.sessions.map (fun r => r.SessionId)
      = m.db.sessions.map (fun r => r.SessionId) := by
  unfold endCurrentIfAny
  by_cases h : m.sessionId.isSome = true
  · rw [if_pos h]; exact endSession_sessionIds m _ t
  · rw [if_neg h]

theorem startFinish_sessions (m2 : Mgr) (sid : String) (t : Nat) :
    (startFinish m2 sid t).1.db.sessions = m2.db.sessions := by
  unfold startFinish
  dsimp only
  rw [save_db_sessions]

/-- Inversion of a successful `StartSession`: the returned id is the
second-resolution timestamp rendering, that id was fresh among the prior
session rows, and the resulting session-id column is the prior one plus
the new id. -/
theorem startSession_ok_spec (m m1 : Mgr) (t : Nat) (id1 : String)
    (h : StartSession m t = .ok (m1, id1)) :
    id1 = fmtTime t ∧
    m1.db.sessions.map (fun r => r.SessionId)
      = m.db.sessions.map (fun r => r.SessionId) ++ [fmtTime t] ∧
    (∀ x ∈ m.db.sessions, x.SessionId ≠ fmtTime t) := by
  unfold StartSession at h
  dsimp only at h
  obtain ⟨m2, hI, hfin⟩ := except_map_ok _ _ _ h
  obtain ⟨hm2, hfresh⟩ := insertSessionRow_ok_inv _ _ _ hI
  have hid : id1 = fmtTime t := by
    have := congrArg Prod.snd hfin
    simpa [startFinish] using this.symm
  have hm1 : m1 = (startFinish m2 (fmtTime t) t).1 := by
    have := congrArg Prod.fst hfin
    exact this.symm
  have hfresh2 : ∀ x ∈ m.db.sessions, x.SessionId ≠ fmtTime t := by
    intro x hx heq
    have hmem : x.SessionId ∈ m.db.sessions.map (fun r => r.SessionId) :=
      List.mem_map_of_mem _ hx
    rw [← endCurrentIfAny_sessionIds m "Ended to start new session" t] at hmem
    obtain ⟨r, hr, hre⟩ := List.mem_map.mp hmem
    exact hfresh r hr (hre.trans heq)
  refine ⟨hid, ?_, hfresh2⟩
  rw [hm1, startFinish_sessions, hm2]
  dsimp only
  rw [List.map_append]
  rw [endCurrentIfAny_sessionIds m "Ended to start new session" t]
  rfl

/-- C5 (amended): the id returned by `StartSession` is exactly the
second-resolution timestamp rendering, with no disambiguation on
collision; whenever two invocations both return ids, those ids are
distinct — but that is enforced by the store's primary key rejecting the
second same-second insert (the call raises and returns no id), not by
disambiguation. -/
theorem c5_start_ids_distinct (m m1 m2 : Mgr) (t t2 : Nat) (id1 id2 : String)
    (h1 : StartSession m t = .ok (m1, id1))
    (h2 : StartSession m1 t2 = .ok (m2, id2)) : id1 ≠ id2 := by
  obtain ⟨e1, hids1, _⟩ := startSession_ok_spec m m1 t id1 h1
  obtain ⟨e2, _, hfresh2⟩ := startSession_ok_spec m1 m2 t2 id2 h2
  subst e1
  subst e2
  intro hEq
  have hmem : fmtTime t ∈ m1.db.sessions.map (fun r => r.SessionId) := by
    rw [hids1]
    exact List.mem_append_right _ (List.mem_singleton.mpr rfl)
  obtain ⟨x, hx, hxe⟩ := List.mem_map.mp hmem
  exact hfresh2 x hx (hxe.trans hEq)

/-- The empty initial manager used by the C5 counterexample and witness. -/
def mgrC5 : Mgr :=
  { fs := { active := [], crashed := [], completed := [], lock := none },
    db := { sessions := [], actions := [], snapshots := [],
            relationships := [] },
    sessionId := none, uuidCtr := 0 }

/-- C5 counterexample: two `StartSession` invocations whose timestamps
render to the same second-resolution string do not return distinct ids —
the first succeeds, and the second returns no id at all: its insert
violates the `Sessions.SessionId` primary key and the resulting
`IntegrityError` propagates. There is no disambiguation on collision. -/
theorem c5_counterexample :
    (StartSession mgrC5 0).isOk = true ∧
    (Except.bind (StartSession mgrC5 0)
        (fun p => StartSession p.1 0)).isOk = false :=
  ⟨rfl, rfl⟩


/-- The manager state after `StartSession mgrC5 0`. -/
def mgrC5a : Mgr :=
  { fs := { active := [("0", some (.valid (initialState "0" 0)))],
            crashed := [], completed := [], lock := some "0" },
    db := { sessions := [⟨"0", 0, none, "ACTIVE", none⟩],
            actions := [],
            snapshots := [⟨"uuid-0", "0", 0, initialState "0" 0⟩],
            relationships := [] },
    sessionId := some "0", uuidCtr := 1 }

/-- The manager state after `StartSession mgrC5a 1` (the prior session is
first ended with the generic summary). -/
def mgrC5b : Mgr :=
  { fs := { active := [("1", some (.valid (initialState "1" 1)))],
            crashed := [],
            completed := [("0", some (.valid
              { SessionId := "0", StartTime := 0, Messages := [], Context := [],
                LastModified := 1, EndTime := some 1,
                Status := some "COMPLETED",
                Summary := some "Ended to start new session",
                Actions := none, ResumedFrom := none,
                OriginalSessionId := none }))],
            lock := some "1" },
    db := { sessions := [⟨"0", 0, some 1, "COMPLETED",
              some "Ended to start new session"⟩,
            ⟨"1", 1, none, "ACTIVE", none⟩],
            actions := [],
            snapshots := [⟨"uuid-0", "0", 0, initialState "0" 0⟩,
              ⟨"uuid-1", "1", 1, initialState "1" 1⟩],
            relationships := [] },
    sessionId := some "1", uuidCtr := 2 }

/-- C5 witness: the hypotheses of `c5_start_ids_distinct` hold for two
successful invocations at distinct seconds starting from `mgrC5`. -/
theorem c5_witness :
    StartSession mgrC5 0 = .ok (mgrC5a, "0") ∧
    StartSession mgrC5a 1 = .ok (mgrC5b, "1") ∧
    ("0" : String) ≠ "1" :=
  ⟨rfl, rfl, c5_start_ids_distinct mgrC5 mgrC5a mgrC5b 0 1 "0" "1" rfl rfl⟩

/-! Claim C4: corruption never blocks resumption. -/

theorem load_after_resumeFinish (m2 : Mgr) (cid newId : String)
    (c : Option FileContent) (t : Nat) (hsid : m2.sessionId = some newId) :
    LoadSessionState (resumeFinish m2 cid newId c t)
      = some { resumeState c newId t cid with LastModified := t } := by
  unfold resumeFinish
  dsimp only
  unfold LoadSessionState
  rw [save_sessionId]
  rw [show ({ m2 with db := { m2.db with
      relationships := m2.db.relationships ++
        [(⟨cid, newId, "RESUME"⟩ : RelRow)] } } : Mgr).sessionId = some newId
    from hsid]
  dsimp only
  rw [save_ok _ _ _ newId rfl (dirLookup_ensure_isSome m2.fs.active newId)]

/-- C4: for every crashed session id whose directory exists under the
crashed partition, `ResumeSession` returns a valid new session id even
when the crashed session's `state.json` is absent or malformed; in those
cases the subsequently loaded state is exactly the minimal fallback state
— non-null, carrying `ResumedFrom` equal to the crashed id and no stale
fields from the corrupted file. (The new id must not collide with an
existing session row; `uuid`-free suffixed ids make that a freshness
hypothesis.) -/
theorem c4_resume_corruption (m : Mgr) (cid : String) (t : Nat)
    (c : Option FileContent)
    (hc : dirLookup m.fs.crashed cid = some c)
    (hmal : c = none ∨ ∃ raw, c = some (.malformed raw))
    (hfresh : ∀ r ∈ m.db.sessions,
      r.SessionId ≠ cid ++ "_resumed_" ++ fmtTime t) :
    ∃ m2, ResumeSession m cid t
        = .ok (m2, some (cid ++ "_resumed_" ++ fmtTime t)) ∧
      LoadSessionState m2
        = some (minimalState (cid ++ "_resumed_" ++ fmtTime t) t cid) ∧
      (minimalState (cid ++ "_resumed_" ++ fmtTime t) t cid).ResumedFrom
        = some cid := by
  have hmin : resumeState c (cid ++ "_resumed_" ++ fmtTime t) t cid
      = minimalState (cid ++ "_resumed_" ++ fmtTime t) t cid := by
    rcases hmal with h | ⟨raw, h⟩ <;> subst h <;> rfl
  have hfreshX : ∀ r ∈ (endCurrentIfAny m "Ended to resume crashed session"
      t).db.sessions, r.SessionId ≠ cid ++ "_resumed_" ++ fmtTime t := by
    intro r hr heq
    have hmem : r.SessionId ∈ (endCurrentIfAny m
        "Ended to resume crashed session" t).db.sessions.map
        (fun x => x.SessionId) := List.mem_map_of_mem _ hr
    rw [endCurrentIfAny_sessionIds] at hmem
    obtain ⟨x, hx, hxe⟩ := List.mem_map.mp hmem
    exact hfresh x hx (hxe.trans heq)
  unfold ResumeSession
  rw [hc]
  dsimp only
  rw [insertSessionRow_ok _ _ hfreshX]
  dsimp only [Except.map]
  refine ⟨_, rfl, ?_, rfl⟩
  rw [load_after_resumeFinish _ _ _ _ _ rfl, hmin]
  rfl

/-- Concrete manager for the C4 witness: crashed session C whose
`state.json` is malformed JSON. -/
def mgrC4 : Mgr :=
  { fs := { active := [], crashed := [("C", some (.malformed "not json"))],
            completed := [], lock := none },
    db := { sessions := [], actions := [], snapshots := [],
            relationships := [] },
    sessionId := none, uuidCtr := 0 }

/-- C4 witness: the hypotheses of `c4_resume_corruption` hold at `mgrC4`
with a malformed `state.json`. -/
theorem c4_witness :
    ∃ m2, ResumeSession mgrC4 "C" 5
        = .ok (m2, some ("C" ++ "_resumed_" ++ fmtTime 5)) ∧
      LoadSessionState m2
        = some (minimalState ("C" ++ "_resumed_" ++ fmtTime 5) 5 "C") ∧
      (minimalState ("C" ++ "_resumed_" ++ fmtTime 5) 5 "C").ResumedFrom
        = some "C" :=
  c4_resume_corruption mgrC4 "C" 5 (some (.malformed "not json")) rfl
    (Or.inr ⟨"not json", rfl⟩)
    (by intro r hr; exact absurd hr (List.not_mem_nil r))

/-! Claim C8: ExecuteAction precondition failure. -/

/-- C8: when no session is active, `RecordAction` fails and returns no id,
so `ExecuteAction` returns a failure tuple with no action id, leaves the
state unchanged, and never invokes the wrapped function — its outcome is
identical for any two functions. -/
theorem c8_execute_no_session (m : Mgr) (ty : String)
    (fn fn2 : Option Payload → Except Exc (Option Payload))
    (params : Option Payload) (fresh : String) (t : Nat)
    (hs : m.sessionId = none) :
    ExecuteAction m ty fn params fresh t
      = (m, (false, some (.msgObj "Error" "Failed to record action"), none)) ∧
    ExecuteAction m ty fn params fresh t
      = ExecuteAction m ty fn2 params fresh t := by
  have hra : RecordAction m ty params fresh t = (m, none) := by
    unfold RecordAction
    rw [hs]
  constructor
  · unfold ExecuteAction
    rw [hra]
  · unfold ExecuteAction
    rw [hra]

/-- Concrete manager for the C8 witness: no current session. -/
def mgrC8 : Mgr :=
  { fs := { active := [], crashed := [], completed := [], lock := none },
    db := { sessions := [], actions := [], snapshots := [],
            relationships := [] },
    sessionId := none, uuidCtr := 0 }

/-- C8 witness: the hypothesis of `c8_execute_no_session` holds at
`mgrC8`, for a returning function and a raising one. -/
theorem c8_witness :
    ExecuteAction mgrC8 "BUILD" (fun _ => .ok (some (.raw "v")))
        (some (.raw "x")) "A1" 3
      = (mgrC8, (false, some (.msgObj "Error" "Failed to record action"),
          none)) ∧
    ExecuteAction mgrC8 "BUILD" (fun _ => .ok (some (.raw "v")))
        (some (.raw "x")) "A1" 3
      = ExecuteAction mgrC8 "BUILD" (fun _ => .error ⟨"ValueError", "boom"⟩)
          (some (.raw "x")) "A1" 3 :=
  c8_execute_no_session mgrC8 "BUILD" (fun _ => .ok (some (.raw "v")))
    (fun _ => .error ⟨"ValueError", "boom"⟩) (some (.raw "x")) "A1" 3 rfl

/-! Claim C2: terminal-status guards. -/

/-- C2 (amended): `CancelAction` is valid only while the stored status is
STARTED — on a row whose status is anything else it is rejected, returning
false and leaving the whole state unchanged. `CompleteAction`, however,
performs no status check: with a session active it reports success and
applies its row update regardless of the row's current (possibly already
terminal) status. -/
theorem c2_terminal_guards (m : Mgr) (id : String) (t : Nat) (r : ActionRow)
    (res : Option Payload) (status2 : String)
    (hr : findRow m.db.actions id = some r) :
    (r.Status ≠ "STARTED" → CancelAction m id t = (m, false)) ∧
    (m.sessionId.isSome = true →
      (CompleteAction m id res status2 t).2 = true ∧
      (CompleteAction m id res status2 t).1.db.actions
        = m.db.actions.map (termUpd id t status2 res)) := by
  constructor
  · intro hst
    unfold CancelAction
    cases hms : m.sessionId with
    | none => rfl
    | some s =>
      dsimp only
      rw [hr]
      dsimp only
      have hneg : ¬((r.Status == "STARTED") = true) := by
        simpa using hst
      rw [if_neg hneg]
  · intro hms
    obtain ⟨s, hs⟩ := Option.isSome_iff_exists.mp hms
    unfold CompleteAction
    rw [hs]
    exact ⟨rfl, applyTerminal_actions m id status2 res t⟩

/-- Concrete manager for the C2 counterexample and witness: session S is
active, and action A1 already carries the terminal status COMPLETED with
result `r1`. -/
def mgrC2 : Mgr :=
  { fs := { active := [("S", some (.valid (initialState "S" 1)))],
            crashed := [], completed := [], lock := some "S" },
    db := { sessions := [⟨"S", 1, none, "ACTIVE", none⟩],
            actions := [⟨"A1", "S", "BUILD", 2, some 5, "COMPLETED",
              none, some (.raw "r1")⟩],
            snapshots := [], relationships := [] },
    sessionId := some "S", uuidCtr := 0 }

/-- C2 counterexample: a second terminal call is not always rejected — at
`mgrC2` the A1 row is already COMPLETED with result `r1`, yet a further
`CompleteAction` reports success and rewrites the stored row (new end
time and result `r2`). -/
theorem c2_counterexample :
    findRow mgrC2.db.actions "A1"
      = some ⟨"A1", "S", "BUILD", 2, some 5, "COMPLETED",
          none, some (.raw "r1")⟩ ∧
    (CompleteAction mgrC2 "A1" (some (.raw "r2")) "COMPLETED" 9).2 = true ∧
    findRow (CompleteAction mgrC2 "A1" (some (.raw "r2")) "COMPLETED"
        9).1.db.actions "A1"
      = some ⟨"A1", "S", "BUILD", 2, some 9, "COMPLETED",
          none, some (.raw "r2")⟩ := ⟨rfl, rfl, rfl⟩

/-- C2 witness: the hypotheses of `c2_terminal_guards` hold at `mgrC2`
with the already-terminal row A1. -/
theorem c2_witness :
    ((⟨"A1", "S", "BUILD", 2, some 5, "COMPLETED", none,
        some (.raw "r1")⟩ : ActionRow).Status ≠ "STARTED" →
      CancelAction mgrC2 "A1" 9 = (mgrC2, false)) ∧
    (mgrC2.sessionId.isSome = true →
      (CompleteAction mgrC2 "A1" (some (.raw "r2")) "COMPLETED" 9).2 = true ∧
      (CompleteAction mgrC2 "A1" (some (.raw "r2")) "COMPLETED"
          9).1.db.actions
        = mgrC2.db.actions.map (termUpd "A1" 9 "COMPLETED"
            (some (.raw "r2")))) :=
  c2_terminal_guards mgrC2 "A1" 9
    ⟨"A1", "S", "BUILD", 2, some 5, "COMPLETED", none, some (.raw "r1")⟩
    (some (.raw "r2")) "COMPLETED" rfl

/-! Claim C3: ExecuteAction postconditions. -/

/-- C3: with a session active (and the fresh uuid genuinely fresh), for
every action type, wrapped function and params: if the function returns V
the stored action row is COMPLETED with result exactly V; if it raises E
the row is FAILED with a result carrying E's message and type name; and in
both cases the action id is returned to the caller. -/
theorem c3_execute_postconditions (m : Mgr) (sid ty : String)
    (fn : Option Payload → Except Exc (Option Payload))
    (params : Option Payload) (fresh : String) (t : Nat)
    (hs : m.sessionId = some sid)
    (hf : ∀ a ∈ m.db.actions, a.ActionId ≠ fresh) :
    (ExecuteAction m ty fn params fresh t).2.2.2 = some fresh ∧
    (∀ v, fn params = .ok v →
      findRow (ExecuteAction m ty fn params fresh t).1.db.actions fresh
        = some ⟨fresh, sid, ty, t, some t, "COMPLETED", params, v⟩) ∧
    (∀ e, fn params = .error e →
      findRow (ExecuteAction m ty fn params fresh t).1.db.actions fresh
        = some ⟨fresh, sid, ty, t, some t, "FAILED", params,
            some (.errObj e.msg e.ty)⟩) := by
  obtain ⟨h2, hacts, hsid⟩ := recordAction_spec m ty params fresh t sid hs hf
  refine ⟨?_, ?_, ?_⟩
  · unfold ExecuteAction
    dsimp only
    rw [h2]
    dsimp only
    cases hfn : fn params with
    | ok v => rfl
    | error e => rfl
  · intro v hv
    unfold ExecuteAction
    dsimp only
    rw [h2]
    dsimp only
    rw [hv]
    dsimp only
    unfold CompleteAction
    rw [hsid]
    dsimp only
    rw [applyTerminal_actions, hacts]
    exact findRow_termUpd_append m.db.actions fresh t "COMPLETED" v _ hf rfl
  · intro e he
    unfold ExecuteAction
    dsimp only
    rw [h2]
    dsimp only
    rw [he]
    dsimp only
    unfold CompleteAction
    rw [hsid]
    dsimp only
    rw [applyTerminal_actions, hacts]
    exact findRow_termUpd_append m.db.actions fresh t "FAILED"
      (some (.errObj e.msg e.ty)) _ hf rfl

/-- Concrete manager for the C3 witness: session S is active with its
directory and row, and no actions yet. -/
def mgrC3 : Mgr :=
  { fs := { active := [("S", some (.valid (initialState "S" 1)))],
            crashed := [], completed := [], lock := some "S" },
    db := { sessions := [⟨"S", 1, none, "ACTIVE", none⟩],
            actions := [], snapshots := [], relationships := [] },
    sessionId := some "S", uuidCtr := 1 }

/-- The wrapped function used by the C3 witness: returns the payload `v`
for any params. -/
def fnC3 : Option Payload → Except Exc (Option Payload) :=
  fun _ => .ok (some (.raw "v"))

/-- C3 witness: the hypotheses of `c3_execute_postconditions` hold at
`mgrC3` for the returning function `fnC3`. -/
theorem c3_witness :
    (ExecuteAction mgrC3 "BUILD" fnC3 (some (.raw "x")) "A1" 2).2.2.2
      = some "A1" ∧
    (∀ v, fnC3 (some (.raw "x")) = .ok v →
      findRow (ExecuteAction mgrC3 "BUILD" fnC3
          (some (.raw "x")) "A1" 2).1.db.actions "A1"
        = some ⟨"A1", "S", "BUILD", 2, some 2, "COMPLETED",
            some (.raw "x"), v⟩) ∧
    (∀ e, fnC3 (some (.raw "x")) = .error e →
      findRow (ExecuteAction mgrC3 "BUILD" fnC3
          (some (.raw "x")) "A1" 2).1.db.actions "A1"
        = some ⟨"A1", "S", "BUILD", 2, some 2, "FAILED",
            some (.raw "x"), some (.errObj e.msg e.ty)⟩) :=
  c3_execute_postconditions mgrC3 "S" "BUILD"
    fnC3 (some (.raw "x")) "A1" 2 rfl
    (by intro a ha; exact absurd ha (List.not_mem_nil a))

/-! Claim C7: GetPendingActions filter and order. -/

/-- C7: for every session id, `GetPendingActions` returns exactly that
session's actions whose stored status is STARTED, in ascending start-time
order, and excludes every action whose status was set to a terminal value
before the query. -/
theorem c7_pending_filter_order (m : Mgr) (sid : String) :
    (∀ a, a ∈ GetPendingActions m (some sid) ↔
      (a ∈ m.db.actions ∧ a.SessionId = sid ∧ a.Status = "STARTED")) ∧
    List.Sorted startLE (GetPendingActions m (some sid)) ∧
    (∀ a ∈ m.db.actions,
      a.Status = "COMPLETED" ∨ a.Status = "FAILED" ∨ a.Status = "CANCELED" →
      a ∉ GetPendingActions m (some sid)) := by
  have hdef : GetPendingActions m (some sid)
      = List.insertionSort startLE (m.db.actions.filter
          (fun a => a.SessionId == sid && a.Status == "STARTED")) := by
    unfold GetPendingActions
    cases m.sessionId <;> rfl
  have hmem : ∀ a, a ∈ GetPendingActions m (some sid) ↔
      (a ∈ m.db.actions ∧ a.SessionId = sid ∧ a.Status = "STARTED") := by
    intro a
    rw [hdef, List.mem_insertionSort, List.mem_filter]
    simp [and_assoc]
  refine ⟨hmem, ?_, ?_⟩
  · rw [hdef]
    exact List.sorted_insertionSort startLE _
  · intro a _ hterm hin
    have hstarted := ((hmem a).mp hin).2.2
    rcases hterm with h | h | h <;> rw [h] at hstarted <;>
      exact absurd hstarted (by decide)
